import Mathlib

/-!
Verification of the Human Resource Simulator core (cohort engine, CES
capability aggregation, deviation-score standardization, seeded PRNG,
succession scoring, Monte Carlo statistics).

The definitions below are a shallow embedding of the TypeScript sources:
machine numbers are modelled by exact rationals (and by reals where the
source uses transcendental operations such as `Math.pow` with fractional
exponents), 32-bit unsigned integer arithmetic is modelled by natural
numbers reduced modulo 2^32, and `Math.round`/`Math.floor` are modelled by
the corresponding exact operations on rationals.
-/

namespace HRSim

/-! ## Seeded random number generator (math/random.ts, Mulberry32) -/

/-- Modulus of JavaScript 32-bit unsigned integer arithmetic. -/
def UINT32 : Nat := 4294967296

/-- One step of the Mulberry32 generator, from `SeededRandom.next`:
returns the 32-bit output numerator together with the updated stored seed.
JavaScript coerces every bitwise operand with ToInt32/ToUint32, i.e. takes
the residue modulo 2^32, so the stored seed is kept reduced modulo 2^32
(the downstream outputs only depend on that residue). -/
def mulberryNext (seed : Nat) : Nat × Nat :=
  let s := (seed + 0x6d2b79f5) % UINT32
  let t1 := ((s ^^^ (s >>> 15)) * (s ||| 1)) % UINT32
  let t2 := t1 ^^^ ((t1 + ((t1 ^^^ (t1 >>> 7)) * (t1 ||| 61)) % UINT32) % UINT32)
  let out := t2 ^^^ (t2 >>> 14)
  (out, s)

/-- The `SeededRandom` class: its whole instance state is the stored seed. -/
structure SeededRandom where
  seed : Nat
  deriving DecidableEq

/-- The `SeededRandom` constructor: `this.seed = seed >>> 0` reduces the
seed to a 32-bit unsigned integer. -/
def SeededRandom.new (seed : Nat) : SeededRandom :=
  ⟨seed % UINT32⟩

/-- The value/state pair of one `next()` call: the 32-bit output divided by
2^32, giving a rational in [0, 1). -/
def SeededRandom.nextPair (r : SeededRandom) : ℚ × SeededRandom :=
  let p := mulberryNext r.seed
  ((p.1 : ℚ) / (4294967296 : ℚ), ⟨p.2⟩)

/-- Generator state after `n` calls of `next()`. -/
def SeededRandom.stateAfter (r : SeededRandom) : Nat → SeededRandom
  | 0 => r
  | n + 1 => (r.stateAfter n).nextPair.2

/-- The value returned by the `(n+1)`-st call of `next()` on instance `r`. -/
def SeededRandom.output (r : SeededRandom) (n : Nat) : ℚ :=
  ((r.stateAfter n).nextPair).1

/-- The `range(min,max)` method: `min + next() * (max - min)`. -/
def SeededRandom.rangeVal (r : SeededRandom) (lo hi : ℚ) : ℚ × SeededRandom :=
  let p := r.nextPair
  (lo + p.1 * (hi - lo), p.2)

/-- The `int(min,max)` method: `Math.floor(range(min, max + 1))`. -/
def SeededRandom.intVal (r : SeededRandom) (lo hi : ℚ) : ℤ × SeededRandom :=
  let p := r.rangeVal lo (hi + 1)
  (⌊p.1⌋, p.2)

/-- The `chance(probability)` method: `next() < probability`. -/
def SeededRandom.chanceVal (r : SeededRandom) (probability : ℚ) : Bool × SeededRandom :=
  let p := r.nextPair
  (decide (p.1 < probability), p.2)

/-! ## Statistics (math/statistics.ts) -/

/-- Base value of the deviation score (SIMULATION_CONSTANTS.DEVIATION_BASE). -/
def DEVIATION_BASE : ℚ := 50

/-- Scale of the deviation score (SIMULATION_CONSTANTS.DEVIATION_SCALE). -/
def DEVIATION_SCALE : ℚ := 10

/-- Convert a raw score to a deviation score, from `toDeviationScore`. -/
def toDeviationScore (value mean std : ℚ) : ℚ :=
  if std = 0 then DEVIATION_BASE
  else DEVIATION_BASE + DEVIATION_SCALE * ((value - mean) / std)

/-- Convert a deviation score back to a raw score, from `fromDeviationScore`. -/
def fromDeviationScore (deviation mean std : ℚ) : ℚ :=
  mean + ((deviation - DEVIATION_BASE) / DEVIATION_SCALE) * std

/-! ## Population statistics (engines/SimulationEngine.ts, POPULATION_STATS) -/

/-- Baseline year of the demographic table. -/
def POPULATION_STATS.baseYear : ℤ := 2024

/-- Size of the 18-year-old age cohort. -/
def POPULATION_STATS.age18Population : ℚ := 1100000

/-- Size of the 22-year-old age cohort. -/
def POPULATION_STATS.age22Population : ℚ := 1150000

/-- University enrollment rate. -/
def POPULATION_STATS.universityEnrollmentRate : ℚ := 0.56

/-- Annual decline rate of the youth population. -/
def POPULATION_STATS.annualDeclineRate : ℚ := 0.012

/-- The sparse year-to-decline-factor projection table, listed in the
descending year order in which `getPopulationDeclineFactor` scans it
(the source sorts the keys ascending and iterates from the last index
down). -/
def POPULATION_STATS.projectionsDesc : List (ℤ × ℚ) :=
  [(2060, 0.60), (2050, 0.72), (2040, 0.84), (2030, 0.95), (2024, 1)]

/-- The descending scan of `getPopulationDeclineFactor`: return the factor
of the first (i.e. largest) table year that is at most the given year; if
the scan falls through, return 1.0. -/
def declineLookup (year : ℤ) : List (ℤ × ℚ) → ℚ
  | [] => 1
  | (py, f) :: rest => if py ≤ year then f else declineLookup year rest

/-- The `getPopulationDeclineFactor` method of the simulation engine. -/
def getPopulationDeclineFactor (year : ℤ) : ℚ :=
  declineLookup year POPULATION_STATS.projectionsDesc

/-! ## CES capability aggregation (math/ces.ts), over the reals -/

/-- CES elasticity constant (SIMULATION_CONSTANTS.CES_EXPONENT). -/
def CES_EXPONENT : ℝ := 0.8

/-- Key-person population share (SIMULATION_CONSTANTS, top 5 percent). -/
def keyPersonShare : ℝ := 0.05

/-- The `calculateCESValue` function: mismatched or empty inputs yield 0;
otherwise each input is clamped below at 0.01, raised to the exponent,
weighted and averaged, and the weighted mean is raised to the reciprocal
exponent.  Real exponentiation models `Math.pow`. -/
noncomputable def calculateCESValue (inputs weights : List ℝ) (exponent : ℝ) : ℝ :=
  if inputs.length ≠ weights.length ∨ inputs.length = 0 then 0
  else
    let weightedSum := ((inputs.zip weights).map
      (fun p => p.2 * (max 0.01 p.1) ^ exponent)).sum
    let totalWeight := weights.sum
    if totalWeight = 0 then 0
    else (weightedSum / totalWeight) ^ (1 / exponent)

/-! ## Cohort data model (types.ts) -/

/-- The 12 fixed capability axes. -/
inductive CapabilityAxisKey
  | basicScience
  | appliedTech
  | digitalAI
  | manufacturing
  | finance
  | energy
  | globalCompete
  | innovation
  | education
  | policyMaking
  | implementation
  | succession
  deriving DecidableEq

/-- The axis keys in the declared order (CAPABILITY_AXIS_KEYS). -/
def CAPABILITY_AXIS_KEYS : List CapabilityAxisKey :=
  [.basicScience, .appliedTech, .digitalAI, .manufacturing, .finance, .energy,
   .globalCompete, .innovation, .education, .policyMaking, .implementation, .succession]

/-- The four sectors. -/
inductive SectorKey
  | university
  | industry
  | government
  | research
  deriving DecidableEq

/-- The sector keys in the declared order (SECTOR_KEYS). -/
def SECTOR_KEYS : List SectorKey := [.university, .industry, .government, .research]

/-- The growthAxes lists of the SECTORS table. -/
def sectorGrowthAxes : SectorKey → List CapabilityAxisKey
  | .university => [.basicScience, .education, .innovation]
  | .industry => [.appliedTech, .manufacturing, .digitalAI, .implementation]
  | .government => [.policyMaking, .globalCompete]
  | .research => [.basicScience, .appliedTech, .innovation, .globalCompete]

/-- A skill distribution: mean and standard deviation. -/
structure SkillDistribution where
  mean : ℚ
  std : ℚ
  deriving DecidableEq

/-- A cohort: a homogeneous population segment. The skill state maps every
axis key to a distribution. -/
structure Cohort where
  id : String
  sector : SectorKey
  role : String
  roleEn : String
  count : ℚ
  avgAge : ℚ
  avgTenure : ℚ
  maxTenure : ℚ
  skills : CapabilityAxisKey → SkillDistribution

/-! ## String utilities: JavaScript `String.prototype.includes` -/

/-- Whether the first character list is a prefix of the second. -/
def charsPrefix : List Char → List Char → Bool
  | [], _ => true
  | _ :: _, [] => false
  | a :: as, b :: bs => a == b && charsPrefix as bs

/-- Whether the pattern occurs as a contiguous run of the character list. -/
def charsInfix (pat : List Char) : List Char → Bool
  | [] => pat.isEmpty
  | c :: cs => charsPrefix pat (c :: cs) || charsInfix pat cs

/-- JavaScript substring containment `s.includes(pat)`. -/
def strIncludes (s pat : String) : Bool := charsInfix pat.toList s.toList

/-! ## Succession scoring (SimulationEngine.calculateSuccessionScore) -/

/-- Maximum of a list; the source applies `Math.max(...values)` only to
nonempty lists. -/
def maxList : List ℚ → ℚ
  | [] => 0
  | x :: xs => xs.foldl max x

/-- Minimum of a list; the source applies `Math.min(...values)` only to
nonempty lists. -/
def minList : List ℚ → ℚ
  | [] => 0
  | x :: xs => xs.foldl min x

/-- The senior-role detector of the mentor score: the role label contains
one of the substrings "シニア" (senior), "教授" (professor) or "幹部"
(executive). -/
def isSeniorRole (role : String) : Bool :=
  strIncludes role "シニア" || strIncludes role "教授" || strIncludes role "幹部"

/-- One sector block of `calculateSuccessionScore`: the source groups the
cohorts by sector (modelled by a filter, which yields the same per-sector
sublists in order) and, for a nonempty sector, combines an age-diversity
score, a tenure-margin score (the UNWEIGHTED mean of the per-cohort margins)
and a senior-mentor score; an empty sector keeps its initial score 0. -/
def sectorScore (cohorts : List Cohort) (sector : SectorKey) : ℚ :=
  let sectorC := cohorts.filter (fun c => c.sector == sector)
  if sectorC.length = 0 then 0
  else
    let ages := sectorC.map (·.avgAge)
    let ageRange := maxList ages - minList ages
    let ageDiversityScore := min 100 ((ageRange / 40) * 100)
    let tenureMargins := sectorC.map (fun c => (c.maxTenure - c.avgTenure) / c.maxTenure)
    let avgMargin := tenureMargins.sum / tenureMargins.length
    let tenureScore := avgMargin * 100
    let totalCount := (sectorC.map (·.count)).sum
    let seniorCount := ((sectorC.filter (fun c => isSeniorRole c.role)).map (·.count)).sum
    let mentorScore := min 100 ((seniorCount / totalCount) * 300)
    ageDiversityScore * 0.3 + tenureScore * 0.4 + mentorScore * 0.3

/-- The `calculateSuccessionScore` method: the average of the four sector
scores. -/
def calculateSuccessionScore (cohorts : List Cohort) : ℚ :=
  (SECTOR_KEYS.map (sectorScore cohorts)).sum / 4

/-- The age-diversity sub-expression of a sector block. -/
def ageScoreOf (l : List Cohort) : ℚ :=
  min 100 (((maxList (l.map (·.avgAge)) - minList (l.map (·.avgAge))) / 40) * 100)

/-- The per-cohort tenure margin (maxTenure − avgTenure)/maxTenure. -/
def tenureMarginOf (c : Cohort) : ℚ := (c.maxTenure - c.avgTenure) / c.maxTenure

/-- The tenure sub-expression of a sector block: the unweighted mean of the
per-cohort margins, times 100. -/
def tenureScoreUnweighted (l : List Cohort) : ℚ :=
  ((l.map tenureMarginOf).sum / (l.map tenureMarginOf).length) * 100

/-- The senior-mentor sub-expression of a sector block. -/
def mentorScoreOf (l : List Cohort) : ℚ :=
  min 100 ((((l.filter (fun c => isSeniorRole c.role)).map (·.count)).sum /
    ((l.map (·.count)).sum)) * 300)

/-- Modelled from the spec: the count-weighted tenure component,
`weighted_avg((maxTenure − avgTenure)/maxTenure, weight=count) × 100`,
which the spec claims the succession score uses. -/
def tenureScoreWeightedSpec (l : List Cohort) : ℚ :=
  ((l.map (fun c => tenureMarginOf c * c.count)).sum / ((l.map (·.count)).sum)) * 100

/-- Modelled from the spec: a sector score whose tenure component is the
count-weighted average of the margins (age and mentor components as in the
code). -/
def sectorScoreWeightedSpec (cohorts : List Cohort) (sector : SectorKey) : ℚ :=
  let sectorC := cohorts.filter (fun c => c.sector == sector)
  if sectorC.length = 0 then 0
  else
    ageScoreOf sectorC * 0.3 + tenureScoreWeightedSpec sectorC * 0.4 +
      mentorScoreOf sectorC * 0.3

/-! ## Monte Carlo percentiles (workers/simulation.worker.ts and
math/statistics.ts) -/

/-- The percentile helper of `calculateMonteCarloStats`: index the sorted
sample at the floor of `(p/100) * (length - 1)` — no interpolation.  The
index arithmetic depends only on `p` and the length, so the helper is
polymorphic in the sample entries; `d` is the out-of-range default. -/
def mcPercentile {α : Type} (d : α) (sorted : List α) (p : ℚ) : α :=
  sorted.getD (Int.toNat ⌊(p / 100) * ((sorted.length : ℚ) - 1)⌋) d

/-- The percentile helper of `summarize` (math/statistics.ts): linear
interpolation between the two sorted neighbours of the fractional index. -/
def summarizePercentile (sorted : List ℚ) (p : ℚ) : ℚ :=
  let idx := (p / 100) * ((sorted.length : ℚ) - 1)
  let lower := ⌊idx⌋
  let upper := ⌈idx⌉
  if lower = upper then sorted.getD lower.toNat 0
  else sorted.getD lower.toNat 0 * ((upper : ℚ) - idx) +
    sorted.getD upper.toNat 0 * (idx - (lower : ℚ))

/-! ## Simulation constants (types.ts SIMULATION_CONSTANTS) -/

/-- Decay rate of the digitalAI axis. -/
def DIGITAL_AI_DECAY : ℚ := 1.5

/-- Decay rate of every other axis. -/
def STANDARD_DECAY : ℚ := 0.3

/-- Lower bound of the age-efficiency factor. -/
def AGE_EFFICIENCY_MIN : ℚ := 0.3

/-- Reference age of the age-efficiency factor. -/
def AGE_EFFICIENCY_BASE_AGE : ℚ := 22

/-- Denominator of the age-efficiency decline. -/
def AGE_EFFICIENCY_RANGE : ℚ := 60

/-- Weight of the mean in the total score. -/
def SCORE_AVG_WEIGHT : ℝ := 0.6

/-- Weight of the minimum in the total score. -/
def SCORE_MIN_WEIGHT : ℝ := 0.4

/-! ## Real-valued statistics (math/statistics.ts) -/

/-- Minimum of a real list (`Math.min(...values)`, applied to nonempty
lists only in the source). -/
def minListR : List ℝ → ℝ
  | [] => 0
  | x :: xs => xs.foldl min x

/-- Maximum of a real list (`Math.max(...values)`). -/
def maxListR : List ℝ → ℝ
  | [] => 0
  | x :: xs => xs.foldl max x

/-- The tail-branch rational expression of `percentileToZ`, shared by both
tails of the source (its coefficient arrays c and d), applied to
`q = sqrt(-2 log …)`. -/
noncomputable def acklamTailExpr (q : ℝ) : ℝ :=
  (((((-7.784894002430293e-3 * q + -3.223964580411365e-1) * q +
      -2.400758277161838) * q + -2.549732539343734) * q +
      4.374664141464968) * q + 2.938163982698783) /
    ((((7.784695709041462e-3 * q + 3.224671290700398e-1) * q +
      2.445134137142996) * q + 3.754408661907416) * q + 1)

/-- The central-branch rational expression of `percentileToZ` (coefficient
arrays a and b of the source), applied to `q = p − 0.5` and `r = q·q`. -/
noncomputable def acklamCentralExpr (r q : ℝ) : ℝ :=
  (((((-3.969683028665376e1 * r + 2.209460984245205e2) * r +
      -2.759285104469687e2) * r + 1.383577518672690e2) * r +
      -3.066479806614716e1) * r + 2.506628277459239) * q /
    (((((-5.447609879822406e1 * r + 1.615858368580409e2) * r +
      -1.556989798598866e2) * r + 6.680131188771972e1) * r +
      -1.328068155288572e1) * r + 1)

/-- The `percentileToZ` rational approximation of the inverse standard
normal CDF, translated branch for branch (pLow = 0.02425 and
pHigh = 1 − pLow inlined). -/
noncomputable def percentileToZ (percentile : ℝ) : ℝ :=
  let p := percentile / 100
  if p ≤ 0 then -4
  else if 1 ≤ p then 4
  else if p < 0.02425 then
    acklamTailExpr (Real.sqrt (-2 * Real.log p))
  else if p ≤ 1 - 0.02425 then
    acklamCentralExpr ((p - 0.5) * (p - 0.5)) (p - 0.5)
  else
    -acklamTailExpr (Real.sqrt (-2 * Real.log (1 - p)))

/-- The `keyPersonContribution` function: the top-percentile skill value
times the top-percentile head count. -/
noncomputable def keyPersonContribution (dist : SkillDistribution) (count : ℚ)
    (percentile : ℝ) : ℝ :=
  let zScore := percentileToZ ((1 - percentile) * 100)
  let keyPersonValue := (dist.mean : ℝ) + zScore * (dist.std : ℝ)
  let keyPersonCount := (count : ℝ) * percentile
  keyPersonValue * keyPersonCount

/-! ## National capability (math/ces.ts) -/

/-- The `calculateAxisCapability` function: CES value of the cohort means
weighted by counts, plus the normalized key-person bonus. -/
noncomputable def calculateAxisCapability (cohorts : List Cohort)
    (axisKey : CapabilityAxisKey) : ℝ :=
  let inputs := cohorts.map (fun c => ((c.skills axisKey).mean : ℝ))
  let weights := cohorts.map (fun c => (c.count : ℝ))
  let totalKeyPersonContrib :=
    (cohorts.map (fun c => keyPersonContribution (c.skills axisKey) c.count keyPersonShare)).sum
  let cesValue := calculateCESValue inputs weights CES_EXPONENT
  let totalCount := weights.sum
  let keyPersonBonus :=
    if 0 < totalCount then totalKeyPersonContrib / totalCount * keyPersonShare else 0
  cesValue + keyPersonBonus

/-- The `calculateNationalCapability` function: the axis capability on
every axis. -/
noncomputable def calculateNationalCapability (cohorts : List Cohort) :
    CapabilityAxisKey → ℝ :=
  fun axisKey => calculateAxisCapability cohorts axisKey

/-- The `calculateTotalScore` function: 0.6 × mean + 0.4 × minimum of the
axis values. -/
noncomputable def calculateTotalScore (capability : CapabilityAxisKey → ℝ) : ℝ :=
  let values := CAPABILITY_AXIS_KEYS.map capability
  let avg := values.sum / (values.length : ℝ)
  SCORE_AVG_WEIGHT * avg + SCORE_MIN_WEIGHT * minListR values

/-- The `normalizeCapability` function of ces.ts: per-axis deviation score
against the given global statistics (z fixed at 0 when the std is not
positive). -/
noncomputable def normalizeCapability (capability : CapabilityAxisKey → ℝ)
    (mean std : ℝ) : CapabilityAxisKey → ℝ :=
  fun key =>
    let z := if 0 < std then (capability key - mean) / std else 0
    (DEVIATION_BASE : ℝ) + (DEVIATION_SCALE : ℝ) * z

/-! ## Simulation engine (engines/SimulationEngine.ts) -/

/-- The policy parameters record. -/
structure PolicyParameters where
  masterEnrollment : ℚ
  phdEnrollment : ℚ
  phdToAcademia : ℚ
  populationDeclineRate : ℚ
  retirementAgeExtension : ℚ

/-- DEFAULT_POLICY_PARAMS of types.ts. -/
def DEFAULT_POLICY_PARAMS : PolicyParameters :=
  { masterEnrollment := 12, phdEnrollment := 10, phdToAcademia := 18,
    populationDeclineRate := 1.2, retirementAgeExtension := 0 }

/-- DEFAULT_INVESTMENTS of types.ts. -/
def DEFAULT_INVESTMENTS : SectorKey → ℚ
  | .university => 30
  | .industry => 35
  | .government => 15
  | .research => 20

/-- The simulation configuration after the constructor fills the defaults
(`mode` is always the cohort mode here and is omitted). -/
structure SimulationConfig where
  seed : ℕ
  baseYear : ℤ
  enableStochasticity : Bool

/-- The engine-owned simulation state. -/
structure SimulationState where
  year : ℕ
  entities : List Cohort
  capability : CapabilityAxisKey → ℝ
  capabilityNormalized : CapabilityAxisKey → ℝ
  investments : SectorKey → ℚ
  policyParams : PolicyParameters
  totalTalent : ℚ
  successionScore : ℚ
  config : SimulationConfig

/-- One append-only history record. -/
structure HistoryEntry where
  year : ℕ
  capability : CapabilityAxisKey → ℝ
  capabilityNormalized : CapabilityAxisKey → ℝ
  totalScore : ℝ
  successionScore : ℚ
  totalTalent : ℚ
  investments : SectorKey → ℚ

/-- The engine instance: its private state, history and RNG. -/
structure SimulationEngine where
  state : SimulationState
  history : List HistoryEntry
  rng : SeededRandom

/-- SECTOR_GROWTH_MAP of the engine module: the per-sector growth
multiplier of each axis, absent entries defaulting later to 0.5. -/
def SECTOR_GROWTH_MAP (sector : SectorKey) (axis : CapabilityAxisKey) : Option ℚ :=
  match sector, axis with
  | .university, .basicScience => some 2.5
  | .university, .education => some 2.0
  | .university, .innovation => some 1.5
  | .university, .succession => some 1.0
  | .industry, .appliedTech => some 3.0
  | .industry, .manufacturing => some 2.5
  | .industry, .digitalAI => some 2.0
  | .industry, .implementation => some 2.0
  | .industry, .finance => some 1.0
  | .government, .policyMaking => some 2.0
  | .government, .globalCompete => some 1.5
  | .government, .energy => some 1.0
  | .research, .basicScience => some 2.5
  | .research, .appliedTech => some 2.0
  | .research, .innovation => some 2.5
  | .research, .globalCompete => some 1.5
  | .research, .digitalAI => some 1.5
  | _, _ => none

/-- DECAY_RATES of the engine module. -/
def DECAY_RATES : CapabilityAxisKey → Option ℚ
  | .digitalAI => some DIGITAL_AI_DECAY
  | _ => none

/-- The `getDecayRate` helper. -/
def getDecayRate (axisKey : CapabilityAxisKey) : ℚ :=
  (DECAY_RATES axisKey).getD STANDARD_DECAY

/-- A transition-matrix rule (`from` renamed to `fromId`, being a Lean
keyword). -/
structure TransitionRule where
  fromId : String
  toId : String
  probability : ℚ

/-- DEFAULT_TRANSITIONS of the engine module.  Note that the engine's
`applyTransitions` below does NOT consult this table: the source comments
it is "Simplified: just apply retirement for senior cohorts". -/
def DEFAULT_TRANSITIONS : List TransitionRule :=
  [⟨"master_student", "phd_student", 0.1⟩,
   ⟨"master_student", "ind_junior", 0.6⟩,
   ⟨"master_student", "exit", 0.3⟩,
   ⟨"phd_student", "postdoc", 0.5⟩,
   ⟨"phd_student", "res_junior", 0.2⟩,
   ⟨"phd_student", "ind_mid", 0.2⟩,
   ⟨"postdoc", "assist_prof", 0.3⟩,
   ⟨"postdoc", "res_mid", 0.3⟩,
   ⟨"assist_prof", "prof_mid", 0.5⟩,
   ⟨"prof_mid", "prof_senior", 0.6⟩,
   ⟨"prof_senior", "retire", 0.1⟩,
   ⟨"ind_junior", "ind_mid", 0.7⟩,
   ⟨"ind_mid", "ind_senior", 0.5⟩,
   ⟨"ind_senior", "retire", 0.15⟩,
   ⟨"gov_junior", "gov_mid", 0.6⟩,
   ⟨"gov_mid", "gov_senior", 0.4⟩,
   ⟨"gov_senior", "retire", 0.2⟩,
   ⟨"res_junior", "res_mid", 0.6⟩,
   ⟨"res_mid", "res_senior", 0.5⟩,
   ⟨"res_senior", "retire", 0.1⟩]

/-- The `createSkills` closure of `createInitialCohorts`: mean 50 + bonus
(+10 on the sector's growth axes), std 12, on every axis. -/
def createSkills (sectorKey : SectorKey) (bonus : ℚ) : CapabilityAxisKey → SkillDistribution :=
  fun axis =>
    { mean := 50 + bonus + (if axis ∈ sectorGrowthAxes sectorKey then 10 else 0), std := 12 }

/-- The `createInitialCohorts` factory: the fixed registry of 15 cohorts
(6 university, 3 industry, 3 government, 3 research). -/
def createInitialCohorts : List Cohort :=
  [{ id := "master_student", sector := .university, role := "修士学生", roleEn := "Master Student",
     count := 60000, avgAge := 24, avgTenure := 1, maxTenure := 2,
     skills := createSkills .university (-10) },
   { id := "phd_student", sector := .university, role := "博士学生", roleEn := "PhD Student",
     count := 15000, avgAge := 27, avgTenure := 2, maxTenure := 5,
     skills := createSkills .university (-5) },
   { id := "postdoc", sector := .university, role := "ポスドク", roleEn := "Postdoc",
     count := 8000, avgAge := 32, avgTenure := 2, maxTenure := 5,
     skills := createSkills .university 5 },
   { id := "assist_prof", sector := .university, role := "助教", roleEn := "Assistant Professor",
     count := 12000, avgAge := 36, avgTenure := 4, maxTenure := 10,
     skills := createSkills .university 10 },
   { id := "prof_mid", sector := .university, role := "准教授", roleEn := "Associate Professor",
     count := 18000, avgAge := 45, avgTenure := 8, maxTenure := 15,
     skills := createSkills .university 15 },
   { id := "prof_senior", sector := .university, role := "教授", roleEn := "Professor",
     count := 25000, avgAge := 55, avgTenure := 15, maxTenure := 30,
     skills := createSkills .university 20 },
   { id := "ind_junior", sector := .industry, role := "若手技術者", roleEn := "Junior Engineer",
     count := 150000, avgAge := 28, avgTenure := 3, maxTenure := 8,
     skills := createSkills .industry 0 },
   { id := "ind_mid", sector := .industry, role := "中堅技術者", roleEn := "Mid-level Engineer",
     count := 100000, avgAge := 38, avgTenure := 10, maxTenure := 20,
     skills := createSkills .industry 10 },
   { id := "ind_senior", sector := .industry, role := "シニア技術者", roleEn := "Senior Engineer",
     count := 50000, avgAge := 52, avgTenure := 20, maxTenure := 35,
     skills := createSkills .industry 15 },
   { id := "gov_junior", sector := .government, role := "若手官僚", roleEn := "Junior Official",
     count := 25000, avgAge := 30, avgTenure := 2, maxTenure := 5,
     skills := createSkills .government 0 },
   { id := "gov_mid", sector := .government, role := "中堅官僚", roleEn := "Mid-level Official",
     count := 18000, avgAge := 42, avgTenure := 5, maxTenure := 10,
     skills := createSkills .government 10 },
   { id := "gov_senior", sector := .government, role := "幹部官僚", roleEn := "Senior Official",
     count := 7000, avgAge := 55, avgTenure := 10, maxTenure := 20,
     skills := createSkills .government 15 },
   { id := "res_junior", sector := .research, role := "若手研究者", roleEn := "Junior Researcher",
     count := 20000, avgAge := 30, avgTenure := 3, maxTenure := 8,
     skills := createSkills .research 5 },
   { id := "res_mid", sector := .research, role := "主任研究者", roleEn := "Senior Researcher",
     count := 18000, avgAge := 42, avgTenure := 8, maxTenure := 15,
     skills := createSkills .research 12 },
   { id := "res_senior", sector := .research, role := "主席研究者", roleEn := "Principal Researcher",
     count := 12000, avgAge := 55, avgTenure := 15, maxTenure := 25,
     skills := createSkills .research 18 }]

/-- JavaScript `Math.round`: floor of the argument plus one half (halves
round toward positive infinity, also for negative arguments). -/
def jsRound (q : ℚ) : ℚ := ((⌊q + 1 / 2⌋ : ℤ) : ℚ)

/-- The `calculateTotalTalent` method: the sum of the cohort counts. -/
def calculateTotalTalent (cohorts : List Cohort) : ℚ :=
  (cohorts.map (·.count)).sum

/-- The `calculateAgeEfficiency` method. -/
def calculateAgeEfficiency (age : ℚ) : ℚ :=
  max AGE_EFFICIENCY_MIN (1 - (age - AGE_EFFICIENCY_BASE_AGE) / AGE_EFFICIENCY_RANGE)

/-- The `applyPopulationDynamics` method: demographic inflow blended into
the three entry cohorts by id, and every cohort aged by one year. -/
def applyPopulationDynamics (cohorts : List Cohort) (params : PolicyParameters)
    (currentYear : ℤ) : List Cohort :=
  let declineFactor := getPopulationDeclineFactor currentYear
  let baseInflow := POPULATION_STATS.age22Population *
    POPULATION_STATS.universityEnrollmentRate * declineFactor
  let masterInflow := baseInflow * (params.masterEnrollment / 100)
  let phdInflow := masterInflow * (params.phdEnrollment / 100)
  cohorts.map fun cohort =>
    let newCount :=
      if cohort.id == "master_student" then
        jsRound (cohort.count * 0.5 + masterInflow * 0.5)
      else if cohort.id == "phd_student" then
        jsRound (cohort.count * 0.7 + phdInflow * 0.3)
      else if cohort.id == "ind_junior" then
        let industryInflow := baseInflow * 0.4 * (1 - params.masterEnrollment / 100)
        jsRound (cohort.count * 0.9 + industryInflow * 0.1)
      else cohort.count
    { cohort with count := newCount,
                  avgAge := cohort.avgAge + 1,
                  avgTenure := cohort.avgTenure + 1 }

/-- The per-cohort body of `applySkillGrowth`: every axis mean grows by
investment × sector multiplier × age efficiency (plus bounded RNG noise
when stochasticity is enabled), clamped to [0, 100]; the RNG state is
threaded through the axis loop. -/
def growCohort (investments : SectorKey → ℚ) (stochastic : Bool)
    (cohort : Cohort) (rng : SeededRandom) :
    Cohort × SeededRandom :=
  let sectorInvestment := investments cohort.sector / 100
  let res := CAPABILITY_AXIS_KEYS.foldl
    (fun (acc : (CapabilityAxisKey → SkillDistribution) × SeededRandom) axisKey =>
      let skill := acc.1 axisKey
      let growthMultiplier := (SECTOR_GROWTH_MAP cohort.sector axisKey).getD 0.5
      let ageEfficiency := calculateAgeEfficiency cohort.avgAge
      let growth := sectorInvestment * growthMultiplier * ageEfficiency
      let noisePair :=
        if stochastic then
          let p := acc.2.nextPair
          ((p.1 - 0.5) * 0.5, p.2)
        else ((0 : ℚ), acc.2)
      let newMean := min 100 (max 0 (skill.mean + growth + noisePair.1))
      (Function.update acc.1 axisKey { mean := newMean, std := skill.std }, noisePair.2))
    (cohort.skills, rng)
  ({ cohort with skills := res.1 }, res.2)

/-- The `applySkillGrowth` method over the cohort list, threading the RNG
in cohort order. -/
def applySkillGrowth (cohorts : List Cohort) (investments : SectorKey → ℚ)
    (stochastic : Bool) (rng : SeededRandom) : List Cohort × SeededRandom :=
  cohorts.foldl
    (fun (acc : List Cohort × SeededRandom) cohort =>
      let p := growCohort investments stochastic cohort acc.2
      (acc.1 ++ [p.1], p.2))
    ([], rng)

/-- The per-cohort body of `applySkillDecay`: every axis mean loses its
decay rate, clamped below at 0. -/
def decayCohort (cohort : Cohort) : Cohort :=
  { cohort with
    skills := CAPABILITY_AXIS_KEYS.foldl
      (fun skills axisKey =>
        let skill := skills axisKey
        Function.update skills axisKey
          { mean := max 0 (skill.mean - getDecayRate axisKey), std := skill.std })
      cohort.skills }

/-- The `applySkillDecay` method. -/
def applySkillDecay (cohorts : List Cohort) : List Cohort :=
  cohorts.map decayCohort

/-- The `applyTransitions` method.  The source comment reads "Simplified:
just apply retirement for senior cohorts": a cohort whose average tenure
reaches 80 percent of its maximum tenure loses the attrition share
0.05 + (avgTenure/maxTenure)·0.1 of its count, rounded; there is no lower
floor on the resulting count. -/
def applyTransitions (cohorts : List Cohort) : List Cohort :=
  cohorts.map fun cohort =>
    if cohort.maxTenure * 0.8 ≤ cohort.avgTenure then
      let attritionRate := 0.05 + (cohort.avgTenure / cohort.maxTenure) * 0.1
      { cohort with count := jsRound (cohort.count * (1 - attritionRate)) }
    else cohort

/-- The private `normalizeToDeviation` method: cross-axis mean and
population standard deviation (replaced by 10 when zero, the `|| 10` of the
source), then `normalizeCapability`. -/
noncomputable def normalizeToDeviation (capability : CapabilityAxisKey → ℝ) :
    CapabilityAxisKey → ℝ :=
  let values := CAPABILITY_AXIS_KEYS.map capability
  let mean := values.sum / (values.length : ℝ)
  let variance := (values.map (fun v => (v - mean) ^ 2)).sum / (values.length : ℝ)
  let std := Real.sqrt variance
  normalizeCapability capability mean (if std = 0 then 10 else std)

/-- The private `recordHistory` method: push one entry built from the
current state onto the history. -/
noncomputable def recordHistory (e : SimulationEngine) : SimulationEngine :=
  { e with
    history := e.history ++
      [{ year := e.state.year,
         capability := e.state.capability,
         capabilityNormalized := e.state.capabilityNormalized,
         totalScore := calculateTotalScore e.state.capability,
         successionScore := e.state.successionScore,
         totalTalent := e.state.totalTalent,
         investments := e.state.investments }] }

/-- The engine constructor: seed the RNG, create the fixed cohort registry,
compute the initial capability, deviation scores, total talent and
succession score, and record the year-0 history entry. -/
noncomputable def mkEngine (config : SimulationConfig) : SimulationEngine :=
  let rng := SeededRandom.new config.seed
  let cohorts := createInitialCohorts
  let capability := calculateNationalCapability cohorts
  recordHistory
    { state :=
        { year := 0,
          entities := cohorts,
          capability := capability,
          capabilityNormalized := normalizeToDeviation capability,
          investments := DEFAULT_INVESTMENTS,
          policyParams := DEFAULT_POLICY_PARAMS,
          totalTalent := calculateTotalTalent cohorts,
          successionScore := calculateSuccessionScore cohorts,
          config := config },
      history := [],
      rng := rng }

/-- The constructor defaults for a caller-supplied seed: base year from
POPULATION_STATS, stochasticity disabled. -/
def defaultSimulationConfig (seed : ℕ) : SimulationConfig :=
  { seed := seed, baseYear := POPULATION_STATS.baseYear, enableStochasticity := false }

/-- The `simulateYear` method: population dynamics, skill growth, skill
decay, transitions, capability/succession recomputation, year increment and
one history record, in that order. -/
noncomputable def simulateYear (e : SimulationEngine) : SimulationEngine :=
  let s := e.state
  let currentYear := s.config.baseYear + (s.year : ℤ)
  let updatedCohorts := applyPopulationDynamics s.entities s.policyParams currentYear
  let grown := applySkillGrowth updatedCohorts s.investments s.config.enableStochasticity e.rng
  let decayedCohorts := applySkillDecay grown.1
  let transitionedCohorts := applyTransitions decayedCohorts
  let capability := calculateNationalCapability transitionedCohorts
  recordHistory
    { state :=
        { s with
          year := s.year + 1,
          entities := transitionedCohorts,
          capability := capability,
          capabilityNormalized := normalizeToDeviation capability,
          totalTalent := calculateTotalTalent transitionedCohorts,
          successionScore := calculateSuccessionScore transitionedCohorts },
      history := e.history,
      rng := grown.2 }

/-- The loop of `simulateYears(n)`: apply `simulateYear` n times. -/
noncomputable def simulateYearsEngine : ℕ → SimulationEngine → SimulationEngine
  | 0, e => e
  | n + 1, e => simulateYear (simulateYearsEngine n e)

/-- The per-run statistics block of `getResult`. -/
structure SimulationStatistics where
  avgScore : ℝ
  minScore : ℝ
  maxScore : ℝ
  scoreGrowth : ℝ

/-- The `SimulationResult` record. -/
structure SimulationResult where
  finalState : SimulationState
  history : List HistoryEntry
  statistics : SimulationStatistics

/-- The `getResult` method: summary statistics of the history total
scores. -/
noncomputable def getResult (e : SimulationEngine) : SimulationResult :=
  let scores := e.history.map (·.totalScore)
  { finalState := e.state,
    history := e.history,
    statistics :=
      { avgScore := scores.sum / (scores.length : ℝ),
        minScore := minListR scores,
        maxScore := maxListR scores,
        scoreGrowth :=
          if 1 < scores.length then scores.getD (scores.length - 1) 0 - scores.getD 0 0
          else 0 } }

/-! ## Monte Carlo batch (workers/simulation.worker.ts, MONTE_CARLO) -/

/-- The MONTE_CARLO loop of the worker: one fresh engine per iteration,
seeded `baseSeed + i` with stochasticity enabled, run for the common
horizon, collecting one result per run. -/
noncomputable def monteCarloResults (baseSeed : ℕ) (years iterations : ℕ) :
    List SimulationResult :=
  (List.range iterations).map fun i =>
    getResult (simulateYearsEngine years (mkEngine
      { seed := baseSeed + i,
        baseYear := POPULATION_STATS.baseYear,
        enableStochasticity := true }))

/-- The statistics block returned by `calculateMonteCarloStats`. -/
structure MonteCarloStats where
  mean : ℝ
  std : ℝ
  p5 : ℝ
  p25 : ℝ
  p50 : ℝ
  p75 : ℝ
  p95 : ℝ

/-- The `calculateMonteCarloStats` function: mean and population standard
deviation of the per-run average scores, and the five fixed percentiles of
the sorted sample via `mcPercentile` (the sources sort numerically with
`sort((a, b) => a - b)`, modelled by insertion sort under ≤). -/
noncomputable def calculateMonteCarloStats (results : List SimulationResult) :
    MonteCarloStats :=
  let scores := results.map (·.statistics.avgScore)
  let sorted := List.insertionSort (· ≤ ·) scores
  let mean := scores.sum / (scores.length : ℝ)
  { mean := mean,
    std := Real.sqrt ((scores.map (fun s => (s - mean) ^ 2)).sum / (scores.length : ℝ)),
    p5 := mcPercentile 0 sorted 5,
    p25 := mcPercentile 0 sorted 25,
    p50 := mcPercentile 0 sorted 50,
    p75 := mcPercentile 0 sorted 75,
    p95 := mcPercentile 0 sorted 95 }

/-- A concrete one-sector cohort pair on which the unweighted and the
count-weighted tenure means differ: margins 0 and 1/2 with counts 1 and 9. -/
def c8SectorCohorts : List Cohort :=
  [{ id := "a", sector := .university, role := "学生A", roleEn := "Student A",
     count := 1, avgAge := 30, avgTenure := 10, maxTenure := 10, skills := fun _ => ⟨50, 12⟩ },
   { id := "b", sector := .university, role := "学生B", roleEn := "Student B",
     count := 9, avgAge := 30, avgTenure := 5, maxTenure := 10, skills := fun _ => ⟨50, 12⟩ }]

/-! ## Reference semantics of the snapshot accessors
(SimulationEngine.getState / getHistory) -/

/-- A minimal heap model of the JavaScript object graph around `getState`:
cohort objects live at addresses into `cohorts`, array objects (lists of
cohort addresses) at addresses into `arrays`. -/
structure JsHeap where
  cohorts : List Cohort
  arrays : List (List ℕ)

/-- The engine's state object, restricted to the fields the snapshot
contract is about: `entitiesAddr` holds a REFERENCE (an array address),
the scalar fields hold plain values. -/
structure StateObj where
  year : ℕ
  entitiesAddr : ℕ
  totalTalent : ℚ

/-- The engine object owning its state record. -/
structure EngineObj where
  state : StateObj

/-- The `getState` method, `return { ...this.state }`: the object spread
allocates a fresh top-level record and copies each field VALUE — for
`entities` the copied value is the array reference itself, so the returned
snapshot aliases the engine's entities array and, through it, the engine's
cohort objects (`getHistory`'s `[...this.history]` likewise copies the
array but shares the entry objects). -/
def getState (e : EngineObj) : StateObj :=
  { year := e.state.year,
    entitiesAddr := e.state.entitiesAddr,
    totalTalent := e.state.totalTalent }

/-- Dereference a state record's entities: the cohort objects at the
addresses held by its entities array. -/
def readEntities (h : JsHeap) (s : StateObj) : List (Option Cohort) :=
  (h.arrays.getD s.entitiesAddr []).map (fun a => h.cohorts.get? a)

/-- A caller-side mutation through a cohort reference:
`cohortObject.count = v` updates the heap cell in place. -/
def writeCohortCount (h : JsHeap) (addr : ℕ) (v : ℚ) : JsHeap :=
  match h.cohorts.get? addr with
  | some c => { h with cohorts := h.cohorts.set addr { c with count := v } }
  | none => h

/-- A concrete cohort object for the snapshot-aliasing counterexample. -/
def c10Cohort : Cohort :=
  { id := "master_student", sector := .university, role := "修士学生",
    roleEn := "Master Student", count := 60000, avgAge := 24, avgTenure := 1,
    maxTenure := 2, skills := createSkills .university (-10) }

/-- A concrete heap: one cohort object at address 0, one entities array at
address 0 holding it. -/
def c10Heap : JsHeap := { cohorts := [c10Cohort], arrays := [[0]] }

/-- A concrete engine whose state's entities reference is array 0. -/
def c10Engine : EngineObj :=
  { state := { year := 0, entitiesAddr := 0, totalTalent := 60000 } }

end HRSim

namespace HRSim

/-! ## Theorems -/

/-- Each Mulberry32 output numerator is a 32-bit value. -/
theorem mulberryNext_fst_lt (s : Nat) : (mulberryNext s).1 < UINT32 := by
  have hU : UINT32 = 2 ^ 32 := by norm_num [UINT32]
  have hmod : ∀ x : Nat, x % UINT32 < 2 ^ 32 := by
    intro x
    have : 0 < UINT32 := by norm_num [UINT32]
    simpa [hU] using Nat.mod_lt x this
  unfold mulberryNext
  simp only
  rw [hU]
  apply Nat.xor_lt_two_pow
  · exact Nat.xor_lt_two_pow (hmod _) (hmod _)
  · calc _ ≤ _ := by
          rw [Nat.shiftRight_eq_div_pow]
          exact Nat.div_le_self _ _
      _ < 2 ^ 32 := Nat.xor_lt_two_pow (hmod _) (hmod _)

/-- C1: two `SeededRandom` instances built from seeds with the same 32-bit
unsigned reduction are identical, hence produce bit-identical `next()`
sequences (and therefore identical results from every derived method:
`range`, `int`, `gaussian`, `shuffle`, `pick`, `chance`), and every
`next()` value lies in the half-open interval [0, 1). -/
theorem seededRandom_deterministic_and_bounded (s1 s2 : Nat)
    (h : s1 % UINT32 = s2 % UINT32) :
    SeededRandom.new s1 = SeededRandom.new s2 ∧
    (∀ n, (SeededRandom.new s1).output n = (SeededRandom.new s2).output n) ∧
    (∀ n, 0 ≤ (SeededRandom.new s1).output n ∧ (SeededRandom.new s1).output n < 1) := by
  have hnew : SeededRandom.new s1 = SeededRandom.new s2 := by
    simp only [SeededRandom.new, h]
  refine ⟨hnew, fun n => by rw [hnew], fun n => ?_⟩
  have hlt := mulberryNext_fst_lt ((SeededRandom.new s1).stateAfter n).seed
  have hlt' : (mulberryNext ((SeededRandom.new s1).stateAfter n).seed).1 < 4294967296 := by
    simpa [UINT32] using hlt
  constructor
  · simp only [SeededRandom.output, SeededRandom.nextPair]
    apply div_nonneg
    · exact_mod_cast Nat.zero_le _
    · norm_num
  · simp only [SeededRandom.output, SeededRandom.nextPair]
    rw [div_lt_one (by norm_num)]
    exact_mod_cast hlt'

/-- Witness for C1 at the concrete seeds 42 and 42 + 2^32 (equal after
32-bit reduction). -/
theorem seededRandom_deterministic_and_bounded_witness :
    SeededRandom.new 42 = SeededRandom.new (42 + UINT32) ∧
    (SeededRandom.new 42).output 3 = (SeededRandom.new (42 + UINT32)).output 3 ∧
    0 ≤ (SeededRandom.new 42).output 3 ∧ (SeededRandom.new 42).output 3 < 1 := by
  have h := seededRandom_deterministic_and_bounded 42 (42 + UINT32) (by decide)
  exact ⟨h.1, h.2.1 3, h.2.2 3⟩

/-- C6: for every deviation score `d`, mean `μ` and positive `σ`, converting
`d` back to a raw value and standardizing again returns exactly `d` (the
rational model computes the round trip exactly, hence in particular within
floating-point tolerance). -/
theorem deviationScore_round_trip (d mean std : ℚ) (h : 0 < std) :
    toDeviationScore (fromDeviationScore d mean std) mean std = d := by
  rw [toDeviationScore, fromDeviationScore, if_neg (ne_of_gt h)]
  have h10 : (DEVIATION_SCALE : ℚ) ≠ 0 := by norm_num [DEVIATION_SCALE]
  field_simp
  ring

/-- Witness for C6 at d = 63, μ = 47, σ = 9. -/
theorem deviationScore_round_trip_witness :
    0 < (9 : ℚ) ∧ toDeviationScore (fromDeviationScore 63 47 9) 47 9 = 63 :=
  ⟨by norm_num, deviationScore_round_trip 63 47 9 (by norm_num)⟩

/-- C7: the decline factor is resolved by returning the factor of the
largest projection-table year that is at most the current year; and in the
case that no projection-table year is at most the current year while the
current year is past the baseline year, the factor equals
(1 − annualDeclineRate)^yearsElapsed.  (For the shipped table the second
case never arises, because the baseline year 2024 is itself a table year,
so it holds vacuously; years before every table year fall through to 1.0.) -/
theorem declineFactor_resolution (y : ℤ) :
    (∀ p f, (p, f) ∈ POPULATION_STATS.projectionsDesc → p ≤ y →
      (∀ q g, (q, g) ∈ POPULATION_STATS.projectionsDesc → q ≤ y → q ≤ p) →
      getPopulationDeclineFactor y = f) ∧
    ((∀ p f, (p, f) ∈ POPULATION_STATS.projectionsDesc → ¬ p ≤ y) →
      POPULATION_STATS.baseYear < y →
      getPopulationDeclineFactor y =
        (1 - POPULATION_STATS.annualDeclineRate) ^ (y - POPULATION_STATS.baseYear).toNat) := by
  constructor
  · intro p f hmem hle hmax
    have h60 : ((2060 : ℤ), (0.60 : ℚ)) ∈ POPULATION_STATS.projectionsDesc := by
      simp [POPULATION_STATS.projectionsDesc]
    have h50 : ((2050 : ℤ), (0.72 : ℚ)) ∈ POPULATION_STATS.projectionsDesc := by
      simp [POPULATION_STATS.projectionsDesc]
    have h40 : ((2040 : ℤ), (0.84 : ℚ)) ∈ POPULATION_STATS.projectionsDesc := by
      simp [POPULATION_STATS.projectionsDesc]
    have h30 : ((2030 : ℤ), (0.95 : ℚ)) ∈ POPULATION_STATS.projectionsDesc := by
      simp [POPULATION_STATS.projectionsDesc]
    simp only [POPULATION_STATS.projectionsDesc, List.mem_cons, List.not_mem_nil,
      or_false, Prod.mk.injEq] at hmem
    rcases hmem with ⟨rfl, rfl⟩ | ⟨rfl, rfl⟩ | ⟨rfl, rfl⟩ | ⟨rfl, rfl⟩ | ⟨rfl, rfl⟩ <;>
      simp only [getPopulationDeclineFactor, POPULATION_STATS.projectionsDesc, declineLookup]
    · rw [if_pos hle]
    · have n60 : ¬ (2060 : ℤ) ≤ y := fun hc => by have := hmax 2060 0.60 h60 hc; omega
      rw [if_neg n60, if_pos hle]
    · have n60 : ¬ (2060 : ℤ) ≤ y := fun hc => by have := hmax 2060 0.60 h60 hc; omega
      have n50 : ¬ (2050 : ℤ) ≤ y := fun hc => by have := hmax 2050 0.72 h50 hc; omega
      rw [if_neg n60, if_neg n50, if_pos hle]
    · have n60 : ¬ (2060 : ℤ) ≤ y := fun hc => by have := hmax 2060 0.60 h60 hc; omega
      have n50 : ¬ (2050 : ℤ) ≤ y := fun hc => by have := hmax 2050 0.72 h50 hc; omega
      have n40 : ¬ (2040 : ℤ) ≤ y := fun hc => by have := hmax 2040 0.84 h40 hc; omega
      rw [if_neg n60, if_neg n50, if_neg n40, if_pos hle]
    · have n60 : ¬ (2060 : ℤ) ≤ y := fun hc => by have := hmax 2060 0.60 h60 hc; omega
      have n50 : ¬ (2050 : ℤ) ≤ y := fun hc => by have := hmax 2050 0.72 h50 hc; omega
      have n40 : ¬ (2040 : ℤ) ≤ y := fun hc => by have := hmax 2040 0.84 h40 hc; omega
      have n30 : ¬ (2030 : ℤ) ≤ y := fun hc => by have := hmax 2030 0.95 h30 hc; omega
      rw [if_neg n60, if_neg n50, if_neg n40, if_neg n30, if_pos hle]
  · intro hnone hgt
    exfalso
    have hbase : (2024 : ℤ) < y := by
      simpa [POPULATION_STATS.baseYear] using hgt
    exact hnone 2024 1 (by simp [POPULATION_STATS.projectionsDesc]) (by omega)

/-- Witness for C7 at the year 2035, whose largest table year is 2030. -/
theorem declineFactor_resolution_witness : getPopulationDeclineFactor 2035 = 0.95 := by
  refine (declineFactor_resolution 2035).1 2030 0.95
    (by simp [POPULATION_STATS.projectionsDesc]) (by norm_num) ?_
  intro q g hq hle
  simp only [POPULATION_STATS.projectionsDesc, List.mem_cons, List.not_mem_nil,
    or_false, Prod.mk.injEq] at hq
  rcases hq with ⟨rfl, rfl⟩ | ⟨rfl, rfl⟩ | ⟨rfl, rfl⟩ | ⟨rfl, rfl⟩ | ⟨rfl, rfl⟩ <;> omega

/-- C5 (counterexample): with the single mean 0 and weight 1,
`calculateCESValue` returns (0.01^0.8)^(1/0.8) = 0.01, not the raw mean 0,
because every input is clamped below at 0.01 before exponentiation; so the
claim that the single-cohort CES value always equals the raw mean fails. -/
theorem calculateCESValue_single_zero : calculateCESValue [0] [1] CES_EXPONENT ≠ 0 := by
  have hmax : max (0.01 : ℝ) 0 = 0.01 := by norm_num
  have h : calculateCESValue [0] [1] CES_EXPONENT
      = ((0.01 : ℝ) ^ (0.8 : ℝ)) ^ ((0.8 : ℝ))⁻¹ := by
    simp only [calculateCESValue, CES_EXPONENT, List.zip, List.zipWith, List.map,
      List.sum_cons, List.sum_nil, List.length_cons, List.length_nil]
    rw [if_neg (by norm_num)]
    simp [hmax, one_div]
  rw [h, ← Real.rpow_mul (by norm_num : (0 : ℝ) ≤ 0.01)]
  have he : (0.8 : ℝ) * (0.8 : ℝ)⁻¹ = 1 := by norm_num
  rw [he, Real.rpow_one]
  norm_num

/-- C5 (amended): for every single mean m at least the clamp value 0.01 and
every positive weight w, `calculateCESValue([m], [w])` equals m exactly (in
the exact real model of `Math.pow`); with one cohort the CES aggregation
applies no penalty. -/
theorem calculateCESValue_single (m w : ℝ) (hm : 0.01 ≤ m) (hw : 0 < w) :
    calculateCESValue [m] [w] CES_EXPONENT = m := by
  have hmax : max (0.01 : ℝ) m = m := max_eq_right hm
  have hw0 : w ≠ 0 := ne_of_gt hw
  have hm0 : (0 : ℝ) ≤ m := le_trans (by norm_num) hm
  have h : calculateCESValue [m] [w] CES_EXPONENT
      = ((m : ℝ) ^ (0.8 : ℝ)) ^ ((0.8 : ℝ))⁻¹ := by
    simp only [calculateCESValue, CES_EXPONENT, List.zip, List.zipWith, List.map,
      List.sum_cons, List.sum_nil, List.length_cons, List.length_nil]
    rw [if_neg (by norm_num)]
    simp only [hmax, add_zero, one_div]
    rw [if_neg hw0, mul_div_cancel_left₀ _ hw0]
  rw [h, ← Real.rpow_mul hm0]
  have he : (0.8 : ℝ) * (0.8 : ℝ)⁻¹ = 1 := by norm_num
  rw [he, Real.rpow_one]

/-- Witness for C5 (amended) at m = 50, w = 3. -/
theorem calculateCESValue_single_witness :
    (0.01 : ℝ) ≤ 50 ∧ (0 : ℝ) < 3 ∧ calculateCESValue [50] [3] CES_EXPONENT = 50 :=
  ⟨by norm_num, by norm_num, calculateCESValue_single 50 3 (by norm_num) (by norm_num)⟩

/-- C8 (counterexample): on `c8SectorCohorts` the code's tenure component
is the unweighted mean 25, while the count-weighted average the claim
states is 45, and the full sector scores differ accordingly — so the tenure
component is NOT the count-weighted average. -/
theorem tenureScore_not_weighted :
    tenureScoreUnweighted c8SectorCohorts ≠ tenureScoreWeightedSpec c8SectorCohorts ∧
    sectorScore c8SectorCohorts SectorKey.university ≠
      sectorScoreWeightedSpec c8SectorCohorts SectorKey.university :=
  of_decide_eq_true (by with_unfolding_all rfl)

/-- Helper: when every cohort of the list has one common nonzero count, the
unweighted mean of the tenure margins coincides with the count-weighted
average. -/
theorem tenureScoreUnweighted_eq_weighted_of_const (l : List Cohort) (k : ℚ) (hk : k ≠ 0)
    (hcount : ∀ c ∈ l, c.count = k) :
    tenureScoreUnweighted l = tenureScoreWeightedSpec l := by
  unfold tenureScoreUnweighted tenureScoreWeightedSpec
  have hw : (l.map fun c => tenureMarginOf c * c.count) = l.map fun c => tenureMarginOf c * k :=
    List.map_congr_left fun c hc => by rw [hcount c hc]
  have hc : (l.map fun c => c.count) = l.map fun _ => k :=
    List.map_congr_left fun c hc => hcount c hc
  rw [hw, hc, List.sum_map_mul_right, List.map_const', List.sum_replicate,
    List.length_map, nsmul_eq_mul, mul_div_mul_right _ _ hk]

/-- C8 (amended): the tenure component of the succession score is the
UNWEIGHTED mean of the per-cohort margins (maxTenure − avgTenure)/maxTenure
times 100, not the count-weighted average: every sector block of
`calculateSuccessionScore` decomposes as 0.3·ageScore +
0.4·tenureScoreUnweighted + 0.3·mentorScore, and the code agrees with the
count-weighted form exactly when all member cohorts of the sector share one
common nonzero count. -/
theorem successionScore_tenure_component (cohorts : List Cohort) :
    (calculateSuccessionScore cohorts =
      ((SECTOR_KEYS.map (fun s =>
        let l := cohorts.filter (fun c => c.sector == s)
        if l.length = 0 then 0
        else ageScoreOf l * 0.3 + tenureScoreUnweighted l * 0.4 +
          mentorScoreOf l * 0.3)).sum) / 4) ∧
    (∀ s k, k ≠ 0 →
      (∀ c ∈ cohorts.filter (fun c => c.sector == s), c.count = k) →
      sectorScore cohorts s = sectorScoreWeightedSpec cohorts s) := by
  constructor
  · rfl
  · intro s k hk hcount
    unfold sectorScore sectorScoreWeightedSpec
    by_cases h0 : (cohorts.filter (fun c => c.sector == s)).length = 0
    · rw [if_pos h0, if_pos h0]
    · rw [if_neg h0, if_neg h0]
      show ageScoreOf _ * 0.3 + tenureScoreUnweighted _ * 0.4 + mentorScoreOf _ * 0.3 = _
      rw [tenureScoreUnweighted_eq_weighted_of_const _ k hk hcount]

/-- Witness for C8 (amended) on a two-cohort sector with the common count 7. -/
theorem successionScore_tenure_component_witness :
    sectorScore
      [{ id := "a", sector := .university, role := "学生A", roleEn := "Student A",
         count := 7, avgAge := 30, avgTenure := 10, maxTenure := 10, skills := fun _ => ⟨50, 12⟩ },
       { id := "b", sector := .university, role := "学生B", roleEn := "Student B",
         count := 7, avgAge := 30, avgTenure := 5, maxTenure := 10, skills := fun _ => ⟨50, 12⟩ }]
      SectorKey.university =
    sectorScoreWeightedSpec
      [{ id := "a", sector := .university, role := "学生A", roleEn := "Student A",
         count := 7, avgAge := 30, avgTenure := 10, maxTenure := 10, skills := fun _ => ⟨50, 12⟩ },
       { id := "b", sector := .university, role := "学生B", roleEn := "Student B",
         count := 7, avgAge := 30, avgTenure := 5, maxTenure := 10, skills := fun _ => ⟨50, 12⟩ }]
      SectorKey.university := by
  apply (successionScore_tenure_component _).2 SectorKey.university 7 (by norm_num)
  intro c hc
  fin_cases hc <;> rfl

/-- C3 (counterexample): the fixed registry created by
`createInitialCohorts` does not consist of 14 cohorts with total population
460,000 — it has 15 cohorts whose counts sum to 538,000. -/
theorem initialCohorts_not_fourteen :
    ¬ (createInitialCohorts.length = 14 ∧
       calculateTotalTalent createInitialCohorts = 460000) :=
  fun h => absurd h.1 (by decide)

/-- C3 (amended): the fixed registry has exactly 15 cohorts spread across
the 4 sectors (6 university, 3 industry, 3 government, 3 research), the sum
of their count fields is 538,000, and the year-0 history entry of a freshly
constructed engine reports exactly that total as totalTalent. -/
theorem initialCohorts_registry (cfg : SimulationConfig) :
    createInitialCohorts.length = 15 ∧
    (createInitialCohorts.filter (fun c => c.sector == SectorKey.university)).length = 6 ∧
    (createInitialCohorts.filter (fun c => c.sector == SectorKey.industry)).length = 3 ∧
    (createInitialCohorts.filter (fun c => c.sector == SectorKey.government)).length = 3 ∧
    (createInitialCohorts.filter (fun c => c.sector == SectorKey.research)).length = 3 ∧
    calculateTotalTalent createInitialCohorts = 538000 ∧
    (mkEngine cfg).history.map (·.totalTalent) = [538000] := by
  have htotal : calculateTotalTalent createInitialCohorts = 538000 := by
    norm_num [calculateTotalTalent, createInitialCohorts]
  refine ⟨by decide, by decide, by decide, by decide, by decide, htotal, ?_⟩
  simp [mkEngine, recordHistory, htotal]

/-- One `simulateYear` call advances the year counter by exactly one. -/
theorem simulateYear_state_year (e : SimulationEngine) :
    (simulateYear e).state.year = e.state.year + 1 := rfl

/-- One `simulateYear` call appends exactly one history entry, carrying the
advanced year. -/
theorem simulateYear_history_map_year (e : SimulationEngine) :
    (simulateYear e).history.map (·.year) = e.history.map (·.year) ++ [e.state.year + 1] := by
  simp [simulateYear, recordHistory]

/-- After n simulated years on a fresh engine the year counter reads n. -/
theorem simulateYearsEngine_state_year (cfg : SimulationConfig) (n : ℕ) :
    (simulateYearsEngine n (mkEngine cfg)).state.year = n := by
  induction n with
  | zero => rfl
  | succ k ih => simp [simulateYearsEngine, simulateYear_state_year, ih]

/-- C4: for every n, simulating n years on a freshly constructed engine
leaves exactly n+1 history entries whose year fields are 0, 1, …, n in
order (the year-0 entry recorded at construction, one entry appended per
simulated year). -/
theorem simulateYears_history_years (cfg : SimulationConfig) (n : ℕ) :
    (simulateYearsEngine n (mkEngine cfg)).history.map (·.year) = List.range (n + 1) := by
  induction n with
  | zero =>
    show (mkEngine cfg).history.map (·.year) = [0]
    rfl
  | succ k ih =>
    show (simulateYear (simulateYearsEngine k (mkEngine cfg))).history.map (·.year) = _
    rw [simulateYear_history_map_year, ih, simulateYearsEngine_state_year]
    exact (List.range_succ (k + 1)).symm

/-- C9 (counterexample): on the two-element sample [10, 20] the Monte Carlo
percentile helper returns the floor-indexed element 10 at p = 50, while the
linear interpolation used by `summarize` (and described by the claim)
returns 15 — the reported Monte Carlo percentiles are NOT computed by
linear interpolation. -/
theorem monteCarloPercentile_not_interpolated :
    mcPercentile 0 [(10 : ℚ), 20] 50 = 10 ∧
    summarizePercentile [10, 20] 50 = 15 ∧
    mcPercentile 0 [(10 : ℚ), 20] 50 ≠ summarizePercentile [10, 20] 50 :=
  of_decide_eq_true (by with_unfolding_all rfl)

/-- C9 (amended): Monte Carlo execution with iterations = k produces
exactly k per-run samples (one engine per run, seeded baseSeed + i with
stochasticity enabled, as the definition of `monteCarloResults` records),
and the reported percentiles select the sorted sample at the floor of
p/100·(length−1) with no interpolation; in particular percentile(50) of a
sample with odd cardinality equals the middle sorted element. -/
theorem monteCarlo_samples_and_median (baseSeed years k : ℕ) :
    (monteCarloResults baseSeed years k).length = k ∧
    (∀ (l : List ℚ), Odd l.length →
      mcPercentile 0 l 50 = l.getD ((l.length - 1) / 2) 0) := by
  constructor
  · simp [monteCarloResults]
  · intro l hodd
    obtain ⟨m, hm⟩ := hodd
    unfold mcPercentile
    have h1 : Int.toNat ⌊((50 : ℚ) / 100) * ((l.length : ℚ) - 1)⌋ = m := by
      rw [hm]
      have h2 : ((50 : ℚ) / 100) * (((2 * m + 1 : ℕ) : ℚ) - 1) = ((m : ℕ) : ℚ) := by
        push_cast
        ring
      rw [h2, Int.floor_natCast]
      exact Int.toNat_natCast m
    have h3 : (l.length - 1) / 2 = m := by omega
    rw [h1, h3]

/-- Witness for C9 (amended) on the odd sample [3, 7, 9], whose median is
the middle element 7, with a concrete 4-iteration batch length. -/
theorem monteCarlo_samples_and_median_witness :
    (monteCarloResults 12345 30 4).length = 4 ∧
    Odd ([(3 : ℚ), 7, 9]).length ∧ mcPercentile 0 [(3 : ℚ), 7, 9] 50 = 7 := by
  refine ⟨(monteCarlo_samples_and_median 12345 30 4).1, ⟨1, by norm_num⟩, ?_⟩
  have h := (monteCarlo_samples_and_median 12345 30 4).2 [3, 7, 9] ⟨1, by norm_num⟩
  simpa using h

set_option maxRecDepth 4000 in
/-- C2 (counterexample): the engine applies NO floor to cohort counts — on
the default deterministic run, after the 18th `simulateYear` call the
master_student cohort's count is exactly 0 (its attrition rate
0.05 + (avgTenure/maxTenure)·0.1 reaches exactly 1 when avgTenure = 19 with
maxTenure = 2), so not every cohort count is strictly positive after every
`simulateYear` call. -/
theorem cohortCount_not_positive :
    ¬ (∀ c ∈ (simulateYearsEngine 18 (mkEngine (defaultSimulationConfig 12345))).state.entities,
        0 < c.count) :=
  of_decide_eq_true (by with_unfolding_all rfl)

set_option maxRecDepth 4000 in
/-- C2 (amended): no flow is floored at a positive constant; cohort counts
are only rounded, and the attrition rate grows without bound as tenure
accumulates. On the default deterministic run every cohort count stays
strictly positive after each of the first 17 simulated years, but after
year 18 a cohort count (master_student) reaches exactly 0, and the engine
keeps running. -/
theorem cohortCounts_floorless (k : ℕ) (hk : k ≤ 17) :
    (∀ c ∈ (simulateYearsEngine k (mkEngine (defaultSimulationConfig 12345))).state.entities,
        0 < c.count) ∧
    (∃ c ∈ (simulateYearsEngine 18 (mkEngine (defaultSimulationConfig 12345))).state.entities,
        c.count = 0) := by
  have hall : ∀ k, k ≤ 17 →
      ∀ c ∈ (simulateYearsEngine k (mkEngine (defaultSimulationConfig 12345))).state.entities,
        0 < c.count :=
    of_decide_eq_true (by with_unfolding_all rfl)
  exact ⟨hall k hk, of_decide_eq_true (by with_unfolding_all rfl)⟩

set_option maxRecDepth 4000 in
/-- Witness for C2 (amended) at the boundary year 17. -/
theorem cohortCounts_floorless_witness :
    (17 : ℕ) ≤ 17 ∧
    ((simulateYearsEngine 17 (mkEngine (defaultSimulationConfig 12345))).state.entities.all
      (fun c => decide (0 < c.count))) = true := by
  refine ⟨le_refl 17, ?_⟩
  rw [List.all_eq_true]
  intro c hc
  exact decide_eq_true ((cohortCounts_floorless 17 (le_refl 17)).1 c hc)


/-- C10 (counterexample): `getState` does not return a deep copy — mutating
the count of a cohort reached through the returned snapshot's entities
reference changes what the engine itself subsequently reads, so the
engine's internal state does NOT stay unchanged under caller mutation of a
returned snapshot. -/
theorem getState_not_deep_copy :
    ((readEntities (writeCohortCount c10Heap
        ((c10Heap.arrays.getD (getState c10Engine).entitiesAddr []).getD 0 0) 999)
      c10Engine.state).map (Option.map (·.count))) ≠
    ((readEntities c10Heap c10Engine.state).map (Option.map (·.count))) :=
  of_decide_eq_true (by with_unfolding_all rfl)

/-- C10 (amended): `getState` returns a SHALLOW copy: the returned
top-level record is fresh, but its entities field carries the same array
reference as the engine's own state, so a caller mutation through a nested
cohort object of the snapshot is visible in the engine's subsequent reads —
at the written position the engine reads back exactly the mutated cohort.
(`getHistory` likewise copies only the top-level array, sharing the entry
objects.) -/
theorem getState_shares_entities (e : EngineObj) (h : JsHeap) (addr j : ℕ) (v : ℚ) (c : Cohort)
    (hj : (h.arrays.getD e.state.entitiesAddr [])[j]? = some addr)
    (hc : h.cohorts[addr]? = some c) :
    (getState e).entitiesAddr = e.state.entitiesAddr ∧
    (readEntities (writeCohortCount h addr v) e.state)[j]? =
      some (some { c with count := v }) := by
  refine ⟨rfl, ?_⟩
  have hlt : addr < h.cohorts.length := (List.getElem?_eq_some.mp hc).1
  unfold readEntities writeCohortCount
  rw [show h.cohorts.get? addr = some c from by simpa [List.get?_eq_getElem?] using hc]
  simp only [List.getElem?_map]
  rw [hj]
  simp only [Option.map_some']
  rw [List.get?_eq_getElem?, List.getElem?_set_eq_of_lt _ (by simpa using hlt)]

/-- Witness for C10 (amended) on the concrete heap: writing count 999
through the snapshot's reference at address 0 is read back by the engine. -/
theorem getState_shares_entities_witness :
    (getState c10Engine).entitiesAddr = c10Engine.state.entitiesAddr ∧
    (readEntities (writeCohortCount c10Heap 0 999) c10Engine.state)[0]? =
      some (some { c10Cohort with count := 999 }) :=
  getState_shares_entities c10Engine c10Heap 0 0 999 c10Cohort rfl rfl

end HRSim
